import Mathlib

/-!
Verification of the NBA Betting API query service (backend/app/main.py).

The service is a read-only HTTP layer over three relational tables
(games, players, player_statistics).  We embed the tables as lists of
records and each endpoint as a pure function from its query parameters
and a database value to its result, translating the SQL the endpoint
builds (dynamic WHERE clauses, the season date window, ROW_NUMBER
ranking with conditional aggregation, ILIKE pattern matching,
ORDER BY / LIMIT / OFFSET) into list operations.  SQL AVG over integers
is modelled as the exact rational mean; SQL NULL results of aggregates
are modelled as `Option`.  Python truthiness tests on optional
parameters (`if team_id:`, `if opponent:`) are modelled exactly:
an integer is truthy iff nonzero, a string iff nonempty.
-/

/-- A calendar date, ordered lexicographically (year, month, day),
matching SQL date comparison. -/
structure Date where
  year : Int
  month : Nat
  day : Nat
deriving DecidableEq, Repr

/-- SQL `<` on dates. -/
def Date.ltb (a b : Date) : Bool :=
  decide (a.year < b.year) ||
    (decide (a.year = b.year) &&
      (decide (a.month < b.month) ||
        (decide (a.month = b.month) && decide (a.day < b.day))))

/-- SQL `<=` on dates. -/
def Date.leb (a b : Date) : Bool :=
  Date.ltb a b || decide (a = b)

/-- `params["start"] = f"{season}-10-01"` parsed as a date: Oct 1 of the season start year. -/
def seasonStart (s : Int) : Date := ⟨s, 10, 1⟩

/-- `params["end"] = f"{season+1}-07-01"` parsed as a date: Jul 1 of the following year. -/
def seasonEnd (s : Int) : Date := ⟨s + 1, 7, 1⟩

/-- The season filter `game_date >= :start AND game_date < :end`, applied
only when a season parameter is present (`if season is not None:`). -/
def seasonOk (season : Option Int) (d : Date) : Bool :=
  match season with
  | none => true
  | some s => Date.leb (seasonStart s) d && Date.ltb d (seasonEnd s)

/-- A row of the `games` table. -/
structure GameRow where
  game_id : Int
  game_date : Date
  game_type : String
  home_team_id : Int
  home_team_name : String
  home_score : Int
  away_team_id : Int
  away_team_name : String
  away_score : Int
deriving DecidableEq, Repr

/-- A row of the `players` table. -/
structure Player where
  person_id : Int
  first_name : String
  last_name : String
deriving DecidableEq, Repr

/-- A row of the `player_statistics` table. -/
structure StatRow where
  game_id : Int
  person_id : Int
  game_date : Date
  points : Int
  assists : Int
  rebounds_total : Int
  three_pointers_made : Int
  field_goals_attempted : Int
  field_goals_made : Int
  free_throws_attempted : Int
  free_throws_made : Int
  plus_minus_points : Int
  num_minutes : Int
  home : Bool
  opponent_team_name : String
  player_team_name : String
  game_type : String
deriving DecidableEq, Repr

/-- The external database: the three tables the service reads. -/
structure DB where
  games : List GameRow
  players : List Player
  player_statistics : List StatRow
deriving DecidableEq, Repr

/-- Python truthiness of an optional int parameter (`if team_id:`):
absent and zero are both falsy. -/
def truthyInt : Option Int → Bool
  | none => false
  | some i => i != 0

/-- Python truthiness of an optional string parameter (`if team_name:`):
absent and empty are both falsy. -/
def truthyStr : Option String → Bool
  | none => false
  | some s => s != ""

/-- Insertion step for `sortBy`: place `x` before the first element `y`
with `le x y`. -/
def insertBy (le : α → α → Bool) (x : α) : List α → List α
  | [] => [x]
  | y :: ys => if le x y then x :: y :: ys else y :: insertBy le x ys

/-- Insertion sort by a boolean comparison; models SQL ORDER BY
(deterministic choice among the orders SQL may return on ties). -/
def sortBy (le : α → α → Bool) : List α → List α
  | [] => []
  | x :: xs => insertBy le x (sortBy le xs)

/-- The columns `/games` selects from a matching row. -/
structure GameOut where
  game_id : Int
  game_date : Date
  game_type : String
  home_team_name : String
  home_score : Int
  away_team_name : String
  away_score : Int
deriving DecidableEq, Repr

/-- Projection of a `games` row onto the selected columns. -/
def gameOut (g : GameRow) : GameOut :=
  ⟨g.game_id, g.game_date, g.game_type, g.home_team_name, g.home_score,
    g.away_team_name, g.away_score⟩

/-- Result of `/games`: either the structured error payload
`{"error": "Provide team_id or team_name"}` or a list of rows. -/
inductive GamesResult where
  | error (msg : String)
  | rows (rs : List GameOut)
deriving DecidableEq, Repr

/-- The WHERE predicate `/games` assembles: team id (home or away),
exact team name (home or away), and the season window, each ANDed in
only when its parameter is truthy / present. -/
def gamesPred (team_id : Option Int) (team_name : Option String)
    (season : Option Int) (g : GameRow) : Bool :=
  (if truthyInt team_id then
      g.home_team_id == team_id.getD 0 || g.away_team_id == team_id.getD 0
    else true) &&
  (if truthyStr team_name then
      g.home_team_name == team_name.getD "" || g.away_team_name == team_name.getD ""
    else true) &&
  seasonOk season g.game_date

/-- `GET /games`: rejects requests with neither team filter truthy,
otherwise filters `games`, orders by game_date descending and caps at
`limit` rows. -/
def get_games (team_id : Option Int) (team_name : Option String)
    (season : Option Int) (limit : Nat) (db : DB) : GamesResult :=
  if !truthyInt team_id && !truthyStr team_name then
    .error "Provide team_id or team_name"
  else
    .rows ((((sortBy (fun a b => Date.leb b.game_date a.game_date)
        (db.games.filter (gamesPred team_id team_name season))).take limit).map gameOut))

/-- Exact rational mean of a list of integers; SQL `AVG` over an empty
set is NULL, modelled as `none`. -/
def avgQ (l : List Int) : Option ℚ :=
  if l.isEmpty then none else some ((l.sum : ℚ) / l.length)

/-- SQL `MAX` over strings (NULL on the empty set). -/
def maxStr (l : List String) : Option String :=
  l.foldl (fun acc s =>
    match acc with
    | none => some s
    | some t => some (if t.data < s.data then s else t)) none

/-- One row of the `ranked` CTE in `/players/agg`, before ranking:
the joined and projected columns. -/
structure AggInput where
  player_name : String
  game_date : Date
  points : Int
  assists : Int
  rebounds : Int
deriving DecidableEq, Repr

/-- points + assists + rebounds, the derived PRA column. -/
def AggInput.pra (r : AggInput) : Int := r.points + r.assists + r.rebounds

/-- The FROM/WHERE part of the `ranked` CTE: `player_statistics` rows for
`:pid` (optionally restricted to the season window) joined to `players`
on person_id, projected to the selected columns. -/
def aggRows (pid : Int) (season : Option Int) (db : DB) : List AggInput :=
  (db.player_statistics.filter
      (fun ps => ps.person_id == pid && seasonOk season ps.game_date)).flatMap
    (fun ps =>
      (db.players.filter (fun p => p.person_id == ps.person_id)).map
        (fun p =>
          ⟨p.first_name ++ " " ++ p.last_name, ps.game_date,
            ps.points, ps.assists, ps.rebounds_total⟩))

/-- The `ranked` CTE rows ordered by `ROW_NUMBER() OVER (ORDER BY
game_date DESC)`: the joined rows sorted by date descending.  The row
at index i has rank rn = i + 1. -/
def rankedRows (pid : Int) (season : Option Int) (db : DB) : List AggInput :=
  sortBy (fun a b => Date.leb b.game_date a.game_date) (aggRows pid season db)

/-- The rows with `rn <= :n` (`:n` is the Python `last_n` int). -/
def recentRows (pid : Int) (season : Option Int) (last_n : Int) (db : DB) :
    List AggInput :=
  ((rankedRows pid season db).enum.filter
    (fun x => ((x.1 : Int) + 1) ≤ last_n)).map (·.2)

/-- The single row `/players/agg` returns: conditional (`FILTER (WHERE
rn <= :n)`) and unconditional averages over the ranked set.  SQL NULL
aggregates are `none`. -/
structure AggResult where
  player_name : Option String
  last_n_pts : Option ℚ
  last_n_reb : Option ℚ
  last_n_ast : Option ℚ
  last_n_pra : Option ℚ
  season_pts : Option ℚ
  season_reb : Option ℚ
  season_ast : Option ℚ
  season_pra : Option ℚ
deriving DecidableEq, Repr

/-- `GET /players/agg`: aggregates over the ranked row set.  An aggregate
query with no GROUP BY always yields exactly one row, so the endpoint
always returns this record (all fields NULL when no rows match). -/
def player_agg (pid : Int) (season : Option Int) (last_n : Int) (db : DB) :
    AggResult :=
  let ranked := rankedRows pid season db
  let recent := recentRows pid season last_n db
  { player_name := maxStr (ranked.map (·.player_name))
    last_n_pts := avgQ (recent.map (·.points))
    last_n_reb := avgQ (recent.map (·.rebounds))
    last_n_ast := avgQ (recent.map (·.assists))
    last_n_pra := avgQ (recent.map (·.pra))
    season_pts := avgQ (ranked.map (·.points))
    season_reb := avgQ (ranked.map (·.rebounds))
    season_ast := avgQ (ranked.map (·.assists))
    season_pra := avgQ (ranked.map (·.pra)) }

/-- The columns `/players/gamelogs` selects from a matching row. -/
structure GamelogOut where
  game_id : Int
  game_date : Date
  team : String
  opp : String
  is_home : Bool
  game_type : String
  points : Int
  assists : Int
  rebounds : Int
  pra : Int
  tpm : Int
  fga : Int
  fgm : Int
  fta : Int
  ftm : Int
  plus_minus : Int
  minutes : Int
deriving DecidableEq, Repr

/-- Projection of a `player_statistics` row onto the selected columns. -/
def glOut (ps : StatRow) : GamelogOut :=
  ⟨ps.game_id, ps.game_date, ps.player_team_name, ps.opponent_team_name,
    ps.home, ps.game_type, ps.points, ps.assists, ps.rebounds_total,
    ps.points + ps.assists + ps.rebounds_total, ps.three_pointers_made,
    ps.field_goals_attempted, ps.field_goals_made,
    ps.free_throws_attempted, ps.free_throws_made,
    ps.plus_minus_points, ps.num_minutes⟩

/-- The WHERE predicate `/players/gamelogs` assembles: person_id always,
then season window (`is not None`), opponent (truthy), home
(`is not None`, so False is a real filter) and game_type (truthy). -/
def glPred (pid : Int) (season : Option Int) (opponent : Option String)
    (home : Option Bool) (game_type : Option String) (ps : StatRow) : Bool :=
  ps.person_id == pid &&
  seasonOk season ps.game_date &&
  (if truthyStr opponent then ps.opponent_team_name == opponent.getD "" else true) &&
  (match home with
   | none => true
   | some h => ps.home == h) &&
  (if truthyStr game_type then ps.game_type == game_type.getD "" else true)

/-- `GET /players/gamelogs`: filter, order by game_date descending,
then `LIMIT :limit OFFSET :offset` (skip `offset` rows, return at most
`limit`). -/
def player_gamelogs (pid : Int) (season : Option Int) (opponent : Option String)
    (home : Option Bool) (game_type : Option String) (limit offset : Nat)
    (db : DB) : List GamelogOut :=
  ((((sortBy (fun a b => Date.leb b.game_date a.game_date)
      (db.player_statistics.filter (glPred pid season opponent home game_type))).drop
        offset).take limit).map glOut)

/-- All suffixes of a character list, longest first, ending with `[]`. -/
def suffixesL : List Char → List (List Char)
  | [] => [[]]
  | d :: t => (d :: t) :: suffixesL t

/-- SQL LIKE pattern matching over character lists: `%` matches any
sequence (the rest of the pattern must match some suffix of the
subject), `_` any single character, a backslash escapes the following
pattern character; any other character matches itself.  (Postgres
rejects a pattern ending in a bare escape character; such a pattern is
modelled as matching nothing.) -/
def likeM : List Char → List Char → Bool
  | [], s => s.isEmpty
  | c :: p, s =>
    if c = '%' then
      (suffixesL s).any (fun t => likeM p t)
    else if c = '_' then
      match s with
      | [] => false
      | _ :: s2 => likeM p s2
    else if c = '\\' then
      match p with
      | [] => false
      | e :: p2 =>
        match s with
        | [] => false
        | d :: s2 => d == e && likeM p2 s2
    else
      match s with
      | [] => false
      | d :: s2 => d == c && likeM p s2

/-- Character data of a string, lowercased character-wise; ILIKE is
LIKE over the lowercased pattern and subject. -/
def lowerL (s : String) : List Char := s.data.map Char.toLower

/-- Postgres `s ILIKE pat`. -/
def ilikeB (pat s : String) : Bool := likeM (lowerL pat) (lowerL s)

/-- The computed full name `first_name || ' ' || last_name`. -/
def fullName (p : Player) : String := p.first_name ++ " " ++ p.last_name

/-- An output row of `/players/search`. -/
structure SearchOut where
  person_id : Int
  player_name : String
deriving DecidableEq, Repr

/-- Ascending lexicographic comparison on names, modelling
`ORDER BY player_name`. -/
def nameLe (a b : SearchOut) : Bool :=
  a.player_name.data < b.player_name.data || a.player_name.data == b.player_name.data

/-- `GET /players/search`: rows of `players` whose full name matches
`ILIKE '%' || q || '%'`, ordered by full name, capped at `limit`. -/
def players_search (q : String) (limit : Nat) (db : DB) : List SearchOut :=
  ((sortBy nameLe
    ((db.players.filter (fun p => ilikeB ("%" ++ q ++ "%") (fullName p))).map
      (fun p => ⟨p.person_id, fullName p⟩))).take limit)

/-- Spec-side search (from the spec's words, for comparison with
`players_search`): exactly the players whose full name contains `q` as
a case-insensitive substring, ordered alphabetically by full name,
capped at `limit`. -/
def playersSearchSpec (q : String) (limit : Nat) (db : DB) : List SearchOut :=
  ((sortBy nameLe
    ((db.players.filter (fun p => decide (lowerL q <:+: lowerL (fullName p)))).map
      (fun p => ⟨p.person_id, fullName p⟩))).take limit)

/-- A value bound to a SQL parameter placeholder. -/
inductive Value where
  | int (i : Int)
  | str (s : String)
  | bool (b : Bool)
deriving DecidableEq, Repr

/-- A parameterized SQL statement: the SQL text with `:name`
placeholders, and the map of bound parameters. -/
structure Query where
  sql : String
  params : List (String × Value)
deriving DecidableEq, Repr

/-- The decimal rendering of an integer, as Python `f-string`
interpolation produces it. -/
def intStr (i : Int) : String := toString i

/-- The SQL statement `/games` builds: the WHERE clause is assembled
from constant clause strings chosen by parameter presence/truthiness;
every dynamic value goes into the parameter map. -/
def gamesQuery (team_id : Option Int) (team_name : Option String)
    (season : Option Int) (limit : Int) : Except String Query :=
  if !truthyInt team_id && !truthyStr team_name then
    .error "Provide team_id or team_name"
  else
    .ok
      { sql :=
          "SELECT game_id, game_date, game_type, home_team_name, home_score, away_team_name, away_score FROM games WHERE "
            ++ String.intercalate " AND "
                ((if truthyInt team_id then
                    ["(home_team_id = :tid OR away_team_id = :tid)"]
                  else []) ++
                 (if truthyStr team_name then
                    ["(home_team_name = :tname OR away_team_name = :tname)"]
                  else []) ++
                 (if season.isSome then
                    ["game_date >= :start AND game_date < :end"]
                  else []))
            ++ " ORDER BY game_date DESC LIMIT :limit;"
        params :=
          [("limit", Value.int limit)] ++
          (if truthyInt team_id then [("tid", Value.int (team_id.getD 0))] else []) ++
          (if truthyStr team_name then [("tname", Value.str (team_name.getD ""))] else []) ++
          (match season with
           | none => []
           | some s =>
              [("start", Value.str (intStr s ++ "-10-01")),
               ("end", Value.str (intStr (s + 1) ++ "-07-01"))]) }

/-- The SQL statement `/players/agg` builds: the only dynamic piece of
text is the constant season clause, present iff a season was given. -/
def aggQuery (pid : Int) (season : Option Int) (last_n : Int) : Query :=
  { sql :=
      "WITH ranked AS (SELECT ps.person_id, (p.first_name || ' ' || p.last_name) AS player_name, ps.game_date::date AS game_date, ps.points, ps.assists, ps.rebounds_total AS rebounds, (ps.points + ps.assists + ps.rebounds_total) AS pra, ROW_NUMBER() OVER (PARTITION BY ps.person_id ORDER BY ps.game_date DESC) AS rn FROM player_statistics ps JOIN players p ON p.person_id = ps.person_id WHERE ps.person_id = :pid "
        ++ (if season.isSome then
              "AND ps.game_date >= :start AND ps.game_date < :end"
            else "")
        ++ ") SELECT MAX(player_name) AS player_name, AVG(points) FILTER (WHERE rn <= :n) AS last_n_pts, AVG(rebounds) FILTER (WHERE rn <= :n) AS last_n_reb, AVG(assists) FILTER (WHERE rn <= :n) AS last_n_ast, AVG(pra) FILTER (WHERE rn <= :n) AS last_n_pra, AVG(points) AS season_pts, AVG(rebounds) AS season_reb, AVG(assists) AS season_ast, AVG(pra) AS season_pra FROM ranked;"
    params :=
      [("pid", Value.int pid), ("n", Value.int last_n)] ++
      (match season with
       | none => []
       | some s =>
          [("start", Value.str (intStr s ++ "-10-01")),
           ("end", Value.str (intStr (s + 1) ++ "-07-01"))]) }

/-- The SQL statement `/players/gamelogs` builds. -/
def glQuery (pid : Int) (season : Option Int) (opponent : Option String)
    (home : Option Bool) (game_type : Option String) (limit offset : Int) :
    Query :=
  { sql :=
      "SELECT ps.game_id, ps.game_date::date AS game_date, ps.player_team_name AS team, ps.opponent_team_name AS opp, ps.home AS is_home, ps.game_type, ps.points, ps.assists, ps.rebounds_total AS rebounds, (ps.points + ps.assists + ps.rebounds_total) AS pra, ps.three_pointers_made AS tpm, ps.field_goals_attempted AS fga, ps.field_goals_made AS fgm, ps.free_throws_attempted AS fta, ps.free_throws_made AS ftm, ps.plus_minus_points AS plus_minus, ps.num_minutes AS minutes FROM player_statistics ps WHERE "
        ++ String.intercalate " AND "
            (["ps.person_id = :pid"] ++
             (if season.isSome then
                ["ps.game_date >= :start AND ps.game_date < :end"]
              else []) ++
             (if truthyStr opponent then ["ps.opponent_team_name = :opp"] else []) ++
             (if home.isSome then ["ps.home = :home"] else []) ++
             (if truthyStr game_type then ["ps.game_type = :gt"] else []))
        ++ " ORDER BY ps.game_date DESC LIMIT :limit OFFSET :offset;"
    params :=
      [("pid", Value.int pid), ("limit", Value.int limit),
       ("offset", Value.int offset)] ++
      (match season with
       | none => []
       | some s =>
          [("start", Value.str (intStr s ++ "-10-01")),
           ("end", Value.str (intStr (s + 1) ++ "-07-01"))]) ++
      (if truthyStr opponent then [("opp", Value.str (opponent.getD ""))] else []) ++
      (match home with
       | none => []
       | some h => [("home", Value.bool h)]) ++
      (if truthyStr game_type then [("gt", Value.str (game_type.getD ""))] else []) }

/-- The SQL statement `/players/search` builds: constant text; the
pattern `%q%` and the limit are bound parameters. -/
def searchQuery (q : String) (limit : Int) : Query :=
  { sql :=
      "SELECT person_id, (first_name || ' ' || last_name) AS player_name FROM players WHERE (first_name || ' ' || last_name) ILIKE :q ORDER BY player_name LIMIT :limit;"
    params := [("q", Value.str ("%" ++ q ++ "%")), ("limit", Value.int limit)] }

/-- `l` contains none of the LIKE metacharacters `%`, `_` and the
escape character `\`. -/
def noMetaB (l : List Char) : Bool :=
  l.all (fun c => !(c == '%') && !(c == '_') && !(c == '\\'))

/-- A sample games row (the Nuggets hosting the Lakers). -/
def gw : GameRow :=
  ⟨1, ⟨2024, 1, 1⟩, "Regular Season", 10, "Nuggets", 100, 20, "Lakers", 90⟩

/-- A sample player-statistics row for person 7. -/
def psw : StatRow :=
  ⟨1, 7, ⟨2024, 1, 1⟩, 30, 5, 10, 2, 20, 11, 8, 6, 4, 36, true,
    "Lakers", "Nuggets", "Regular Season"⟩

/-- A sample players row for person 7. -/
def pw : Player := ⟨7, "Test", "Guy"⟩

/-- A stat row for person 7 dated `d` scoring `x` points. -/
def statAt (d : Date) (x : Int) : StatRow :=
  ⟨1, 7, d, x, 0, 0, 0, 0, 0, 0, 0, 0, 0, false, "Opp", "Team", "Regular Season"⟩

/-- Database for the C1 example: player 7 with points 30, 20, 10 in
most-recent-first order. -/
def c1db : DB :=
  { games := []
    players := [⟨7, "Test", "Guy"⟩]
    player_statistics :=
      [statAt ⟨2024, 11, 3⟩ 30, statAt ⟨2024, 11, 2⟩ 20, statAt ⟨2024, 11, 1⟩ 10] }

/-- Database for the C5 witness: player 7 with two games. -/
def c5db : DB :=
  { games := []
    players := [⟨7, "Test", "Guy"⟩]
    player_statistics := [statAt ⟨2024, 11, 2⟩ 12, statAt ⟨2024, 11, 1⟩ 20] }

/-- The empty database. -/
def emptyDB : DB := ⟨[], [], []⟩

/-- The i-th of 100 identical-shape gamelog rows for person 7. -/
def c6row (i : Nat) : StatRow :=
  ⟨i, 7, ⟨2024, 11, 1⟩, i, 0, 0, 0, 0, 0, 0, 0, 0, 0, false,
    "Opp", "Team", "Regular Season"⟩

/-- Database for the C6 witness: 100 matching rows for person 7. -/
def c6db : DB := ⟨[], [], (List.range 100).map c6row⟩

/-- The C6 witness's matching rows ordered by game_date descending. -/
def c6sorted : List StatRow :=
  sortBy (fun a b => Date.leb b.game_date a.game_date)
    (c6db.player_statistics.filter (glPred 7 none none none none))

/-- Database for the C7 counterexample: one player, "Ann Bee". -/
def c7db : DB := ⟨[], [⟨1, "Ann", "Bee"⟩], []⟩

/-- Database for the C7 witness: "Stephen Curry" and "LeBron James". -/
def c7wdb : DB := ⟨[], [⟨30, "Stephen", "Curry"⟩, ⟨23, "LeBron", "James"⟩], []⟩

/-- C3: with neither team_id nor team_name supplied, `/games` returns the
structured InvalidRequest payload — not a row list — for every season,
limit and database state; the result does not depend on the database,
so the database is not consulted. -/
theorem c3_games_requires_team (season : Option Int) (limit : Nat) (db : DB) :
    get_games none none season limit db = .error "Provide team_id or team_name" := by
  rfl

/-- Inserting preserves membership up to adding the new element. -/
theorem mem_insertBy {α : Type} (le : α → α → Bool) (x a : α) (l : List α) :
    a ∈ insertBy le x l ↔ a = x ∨ a ∈ l := by
  induction l with
  | nil => simp [insertBy]
  | cons y ys ih =>
    simp only [insertBy]
    split
    · simp [List.mem_cons]
    · simp only [List.mem_cons, ih]
      tauto

/-- Sorting preserves membership. -/
theorem mem_sortBy {α : Type} (le : α → α → Bool) (a : α) (l : List α) :
    a ∈ sortBy le l ↔ a ∈ l := by
  induction l with
  | nil => simp [sortBy]
  | cons x xs ih => simp [sortBy, mem_insertBy, ih]

/-- A date equal to the start boundary Oct 1 passes the season filter. -/
theorem seasonOk_start (S : Int) : seasonOk (some S) (seasonStart S) = true := by
  simp [seasonOk, seasonStart, seasonEnd, Date.leb, Date.ltb]

/-- A date equal to the end boundary Jul 1 fails the season filter. -/
theorem seasonOk_end (S : Int) : seasonOk (some S) (seasonEnd S) = false := by
  simp [seasonOk, seasonStart, seasonEnd, Date.leb, Date.ltb]

/-- Filtering an indexed list to indices below `m` keeps its first
`m - k` elements. -/
theorem enumFrom_filter_lt_map {α : Type} (m : Nat) (l : List α) :
    ∀ k : Nat,
      ((List.enumFrom k l).filter (fun x => decide (x.1 < m))).map (·.2)
        = l.take (m - k) := by
  induction l with
  | nil => intro k; simp
  | cons a t ih =>
    intro k
    by_cases h : k < m
    · have hs : m - k = (m - (k + 1)) + 1 := by omega
      simp [List.enumFrom, List.filter_cons, h, hs, ih]
    · have h0 : m - k = 0 := by omega
      have h1 : m - (k + 1) = 0 := by omega
      simp [List.enumFrom, List.filter_cons, h, h0, ih, h1]

/-- The `rn <= :n` restriction selects exactly the first `n` (clamped
at zero) rows of the ranked set. -/
theorem recentRows_eq_take (pid : Int) (season : Option Int) (n : Int) (db : DB) :
    recentRows pid season n db = (rankedRows pid season db).take n.toNat := by
  unfold recentRows
  have hfun : (fun (x : Nat × AggInput) => decide ((x.1 : Int) + 1 ≤ n))
      = (fun (x : Nat × AggInput) => decide (x.1 < n.toNat)) := by
    funext x
    exact decide_eq_decide.mpr (by omega)
  rw [hfun]
  have h2 := enumFrom_filter_lt_map n.toNat (rankedRows pid season db) 0
  simpa [List.enum] using h2

/-- The mean of a list of known nonzero length. -/
theorem avgQ_of_length (l : List Int) (k : Nat) (h1 : l.length = k) (h2 : 0 < k) :
    avgQ l = some ((l.sum : ℚ) / k) := by
  have hne : l ≠ [] := by
    intro he
    subst he
    simp at h1
    omega
  simp [avgQ, hne, h1]

/-- C1: in `/players/agg` without a season filter, both aggregates are
computed from the one ranked row set, the recent one differing only by
the rank ≤ last_n restriction (i.e. taking the first last_n ranked
rows); on games with points [30, 20, 10] (most recent first) and
last_n = 2 the endpoint returns last_n_pts = 25 and season_pts = 20. -/
theorem c1_agg_same_rowset :
    (∀ (pid n : Int) (db : DB),
        (player_agg pid none n db).season_pts
            = avgQ ((rankedRows pid none db).map (fun r => r.points)) ∧
        (player_agg pid none n db).last_n_pts
            = avgQ (((rankedRows pid none db).take n.toNat).map (fun r => r.points))) ∧
    (player_agg 7 none 2 c1db).last_n_pts = some 25 ∧
    (player_agg 7 none 2 c1db).season_pts = some 20 := by
  refine ⟨fun pid n db => ⟨rfl, ?_⟩, ?_, ?_⟩
  · simp only [player_agg, recentRows_eq_take]
  · have h : (recentRows 7 none 2 c1db).map (fun r => r.points) = [30, 20] := by decide
    simp only [player_agg]
    rw [h]
    norm_num [avgQ, List.sum_cons, List.sum_nil]
  · have h : (rankedRows 7 none c1db).map (fun r => r.points) = [30, 20, 10] := by decide
    simp only [player_agg]
    rw [h]
    norm_num [avgQ, List.sum_cons, List.sum_nil]

/-- C4: when no `player_statistics` row matches the person (and season
filter), `/players/agg` returns the record with every field absent
(SQL NULL) — it is a total function of the database, never an error. -/
theorem c4_agg_no_rows (pid : Int) (season : Option Int) (last_n : Int) (db : DB)
    (h : db.player_statistics.filter
        (fun ps => ps.person_id == pid && seasonOk season ps.game_date) = []) :
    player_agg pid season last_n db
      = ⟨none, none, none, none, none, none, none, none, none⟩ := by
  have ha : aggRows pid season db = [] := by
    unfold aggRows
    rw [h]
    rfl
  simp [player_agg, rankedRows, recentRows, ha, sortBy, avgQ, maxStr]

/-- Witness for C4 at the empty database. -/
theorem c4_agg_no_rows_witness :
    (emptyDB.player_statistics.filter
        (fun ps => ps.person_id == 7 && seasonOk none ps.game_date) = []) ∧
    player_agg 7 none 10 emptyDB
      = ⟨none, none, none, none, none, none, none, none, none⟩ :=
  ⟨rfl, c4_agg_no_rows 7 none 10 emptyDB rfl⟩

/-- C5: when the player has k matching games with 0 < k < last_n, the
recent averages are the arithmetic mean over exactly those k games —
the divisor is k, with no zero padding. -/
theorem c5_agg_fewer_than_n (pid n : Int) (season : Option Int) (db : DB) (k : Nat)
    (hlen : (rankedRows pid season db).length = k) (hpos : 0 < k)
    (hlt : (k : Int) < n) :
    (player_agg pid season n db).last_n_pts
        = some (((((rankedRows pid season db).map (fun r => r.points)).sum : Int) : ℚ) / k) ∧
    (player_agg pid season n db).last_n_reb
        = some (((((rankedRows pid season db).map (fun r => r.rebounds)).sum : Int) : ℚ) / k) ∧
    (player_agg pid season n db).last_n_ast
        = some (((((rankedRows pid season db).map (fun r => r.assists)).sum : Int) : ℚ) / k) ∧
    (player_agg pid season n db).last_n_pra
        = some (((((rankedRows pid season db).map (fun r => r.pra)).sum : Int) : ℚ) / k) := by
  have htake : (rankedRows pid season db).take n.toNat = rankedRows pid season db :=
    List.take_of_length_le (by omega)
  refine ⟨?_, ?_, ?_, ?_⟩
  · simp only [player_agg, recentRows_eq_take, htake]
    exact avgQ_of_length ((rankedRows pid season db).map (fun r => r.points)) k
      (by simp [hlen]) hpos
  · simp only [player_agg, recentRows_eq_take, htake]
    exact avgQ_of_length ((rankedRows pid season db).map (fun r => r.rebounds)) k
      (by simp [hlen]) hpos
  · simp only [player_agg, recentRows_eq_take, htake]
    exact avgQ_of_length ((rankedRows pid season db).map (fun r => r.assists)) k
      (by simp [hlen]) hpos
  · simp only [player_agg, recentRows_eq_take, htake]
    exact avgQ_of_length ((rankedRows pid season db).map (fun r => r.pra)) k
      (by simp [hlen]) hpos

/-- Witness for C5: two games, last_n = 10. -/
theorem c5_agg_fewer_than_n_witness :
    (rankedRows 7 none c5db).length = 2 ∧ 0 < 2 ∧ ((2 : Nat) : Int) < 10 ∧
    ((player_agg 7 none 10 c5db).last_n_pts
        = some (((((rankedRows 7 none c5db).map (fun r => r.points)).sum : Int) : ℚ) / 2) ∧
     (player_agg 7 none 10 c5db).last_n_reb
        = some (((((rankedRows 7 none c5db).map (fun r => r.rebounds)).sum : Int) : ℚ) / 2) ∧
     (player_agg 7 none 10 c5db).last_n_ast
        = some (((((rankedRows 7 none c5db).map (fun r => r.assists)).sum : Int) : ℚ) / 2) ∧
     (player_agg 7 none 10 c5db).last_n_pra
        = some (((((rankedRows 7 none c5db).map (fun r => r.pra)).sum : Int) : ℚ) / 2)) :=
  ⟨by decide, by decide, by decide,
    c5_agg_fewer_than_n 7 10 none c5db 2 (by decide) (by decide) (by decide)⟩

/-- C9: `/games` applies Python truthiness to both team filters: an
explicit team_id = 0 (resp. an explicit empty-string team_name) with
the other filter unsupplied yields the InvalidRequest payload even
though the parameter was provided, and an explicit team_id = 0 next to
a team_name (resp. an explicit empty-string team_name next to a
team_id) contributes no filter predicate — the call behaves exactly
like one without that parameter. -/
theorem c9_games_falsy_team_filters (season : Option Int) (limit : Nat) (db : DB)
    (nm : String) (tid : Int) :
    get_games (some 0) none season limit db
        = .error "Provide team_id or team_name" ∧
    get_games (some 0) (some nm) season limit db
        = get_games none (some nm) season limit db ∧
    get_games none (some "") season limit db
        = .error "Provide team_id or team_name" ∧
    get_games (some tid) (some "") season limit db
        = get_games (some tid) none season limit db :=
  ⟨rfl, rfl, rfl, rfl⟩

/-- C10: `/players/gamelogs` treats an empty-string opponent or
game_type as absent (no constraint), while home = False is a real
filter: every returned row is an away game. -/
theorem c10_gamelogs_empty_filters (pid : Int) (season : Option Int)
    (home : Option Bool) (opp gt : Option String) (limit offset : Nat) (db : DB) :
    player_gamelogs pid season (some "") home gt limit offset db
        = player_gamelogs pid season none home gt limit offset db ∧
    player_gamelogs pid season opp home (some "") limit offset db
        = player_gamelogs pid season opp home none limit offset db ∧
    (player_gamelogs pid season opp (some false) gt limit offset db).all
        (fun r => r.is_home == false) = true := by
  refine ⟨rfl, rfl, ?_⟩
  rw [List.all_eq_true]
  intro r hr
  simp only [player_gamelogs, List.mem_map] at hr
  obtain ⟨ps, hps, rfl⟩ := hr
  have h1 : ps ∈ sortBy (fun a b => Date.leb b.game_date a.game_date)
      (db.player_statistics.filter (glPred pid season opp (some false) gt)) :=
    List.mem_of_mem_drop (List.mem_of_mem_take hps)
  rw [mem_sortBy] at h1
  have h2 := List.of_mem_filter h1
  simp only [glPred, Bool.and_eq_true, beq_iff_eq] at h2
  simp [glOut, h2.1.2]

/-- C2: for every season value S, the derived window is the half-open
range [S-10-01, (S+1)-07-01): a row dated exactly on the start boundary
is returned by `/games`, `/players/gamelogs` and counted by
`/players/agg`, and a row dated exactly on the end boundary is
excluded by all three. -/
theorem c2_season_window (S : Int) (g : GameRow) (ps : StatRow) (p : Player)
    (htid : g.home_team_id ≠ 0) (hp : p.person_id = ps.person_id) :
    get_games (some g.home_team_id) none (some S) 200
        ⟨[{g with game_date := seasonStart S}], [], []⟩
      = .rows [gameOut {g with game_date := seasonStart S}] ∧
    get_games (some g.home_team_id) none (some S) 200
        ⟨[{g with game_date := seasonEnd S}], [], []⟩
      = .rows [] ∧
    player_gamelogs ps.person_id (some S) none none none 50 0
        ⟨[], [], [{ps with game_date := seasonStart S}]⟩
      = [glOut {ps with game_date := seasonStart S}] ∧
    player_gamelogs ps.person_id (some S) none none none 50 0
        ⟨[], [], [{ps with game_date := seasonEnd S}]⟩
      = [] ∧
    (player_agg p.person_id (some S) 10
        ⟨[], [p], [{ps with game_date := seasonStart S}]⟩).season_pts
      = some (ps.points : ℚ) ∧
    (player_agg p.person_id (some S) 10
        ⟨[], [p], [{ps with game_date := seasonEnd S}]⟩).season_pts
      = none := by
  refine ⟨?_, ?_, ?_, ?_, ?_, ?_⟩
  · have hpred : gamesPred (some g.home_team_id) none (some S)
        {g with game_date := seasonStart S} = true := by
      simp [gamesPred, truthyInt, truthyStr, htid, seasonOk_start]
    simp [get_games, truthyInt, htid, List.filter_cons, hpred, sortBy, insertBy,
      List.take_of_length_le]
  · have hpred : gamesPred (some g.home_team_id) none (some S)
        {g with game_date := seasonEnd S} = false := by
      simp [gamesPred, truthyInt, truthyStr, htid, seasonOk_end]
    simp [get_games, truthyInt, htid, List.filter_cons, hpred, sortBy, insertBy]
  · have hpred : glPred ps.person_id (some S) none none none
        {ps with game_date := seasonStart S} = true := by
      simp [glPred, truthyStr, seasonOk_start]
    simp [player_gamelogs, List.filter_cons, hpred, sortBy, insertBy,
      List.take_of_length_le]
  · have hpred : glPred ps.person_id (some S) none none none
        {ps with game_date := seasonEnd S} = false := by
      simp [glPred, truthyStr, seasonOk_end]
    simp [player_gamelogs, List.filter_cons, hpred, sortBy, insertBy]
  · have hr : rankedRows p.person_id (some S)
        ⟨[], [p], [{ps with game_date := seasonStart S}]⟩
        = [⟨p.first_name ++ " " ++ p.last_name, seasonStart S,
            ps.points, ps.assists, ps.rebounds_total⟩] := by
      simp [rankedRows, aggRows, List.filter_cons, hp, seasonOk_start, sortBy, insertBy]
    simp only [player_agg, hr]
    simp [avgQ]
  · have hr : rankedRows p.person_id (some S)
        ⟨[], [p], [{ps with game_date := seasonEnd S}]⟩ = [] := by
      simp [rankedRows, aggRows, List.filter_cons, hp, seasonOk_end, sortBy]
    simp only [player_agg, hr]
    simp [avgQ]

/-- Witness for C2 at season 2024 with the sample rows. -/
theorem c2_season_window_witness :
    gw.home_team_id ≠ 0 ∧ pw.person_id = psw.person_id ∧
    (get_games (some gw.home_team_id) none (some 2024) 200
        ⟨[{gw with game_date := seasonStart 2024}], [], []⟩
      = .rows [gameOut {gw with game_date := seasonStart 2024}] ∧
    get_games (some gw.home_team_id) none (some 2024) 200
        ⟨[{gw with game_date := seasonEnd 2024}], [], []⟩
      = .rows [] ∧
    player_gamelogs psw.person_id (some 2024) none none none 50 0
        ⟨[], [], [{psw with game_date := seasonStart 2024}]⟩
      = [glOut {psw with game_date := seasonStart 2024}] ∧
    player_gamelogs psw.person_id (some 2024) none none none 50 0
        ⟨[], [], [{psw with game_date := seasonEnd 2024}]⟩
      = [] ∧
    (player_agg pw.person_id (some 2024) 10
        ⟨[], [pw], [{psw with game_date := seasonStart 2024}]⟩).season_pts
      = some (psw.points : ℚ) ∧
    (player_agg pw.person_id (some 2024) 10
        ⟨[], [pw], [{psw with game_date := seasonEnd 2024}]⟩).season_pts
      = none) :=
  ⟨by decide, by decide, c2_season_window 2024 gw psw pw (by decide) (by decide)⟩

/-- C6: with offset = 50, limit = 50 and at least 100 matching rows,
`/players/gamelogs` returns exactly 50 rows, and the i-th returned row
is the (51+i)-th most recent matching row (index 50+i of the matching
rows ordered by game_date descending). -/
theorem c6_gamelogs_pagination (pid : Int) (season : Option Int)
    (opp : Option String) (home : Option Bool) (gt : Option String) (db : DB)
    (h : 100 ≤ (sortBy (fun a b => Date.leb b.game_date a.game_date)
        (db.player_statistics.filter (glPred pid season opp home gt))).length) :
    (player_gamelogs pid season opp home gt 50 50 db).length = 50 ∧
    ∀ i : Nat, i < 50 →
      (player_gamelogs pid season opp home gt 50 50 db)[i]?
        = ((sortBy (fun a b => Date.leb b.game_date a.game_date)
            (db.player_statistics.filter (glPred pid season opp home gt)))[50 + i]?).map
              glOut := by
  constructor
  · simp only [player_gamelogs, List.length_map, List.length_take, List.length_drop]
    omega
  · intro i hi
    simp [player_gamelogs, List.getElem?_take, hi, List.getElem?_drop]

/-- Witness for C6: 100 matching rows, checking the row count and the
first returned row. -/
theorem c6_gamelogs_pagination_witness :
    100 ≤ c6sorted.length ∧
    (player_gamelogs 7 none none none none 50 50 c6db).length = 50 ∧
    (player_gamelogs 7 none none none none 50 50 c6db)[0]?
      = (c6sorted[50 + 0]?).map glOut :=
  ⟨by decide,
    (c6_gamelogs_pagination 7 none none none none c6db (by decide)).1,
    (c6_gamelogs_pagination 7 none none none none c6db (by decide)).2 0 (by decide)⟩

/-- C8: in all four operations every dynamic filter value is carried in
the bound-parameter map, never interpolated into the SQL text: two
calls whose optional filters are present (truthy) in the same pattern
but carry different values build the identical SQL string. -/
theorem c8_bound_parameters :
    (∀ (t t' : Option Int) (nm nm' : Option String) (s s' : Option Int) (l l' : Int),
        truthyInt t = truthyInt t' → truthyStr nm = truthyStr nm' →
        s.isSome = s'.isSome →
        (gamesQuery t nm s l).map Query.sql = (gamesQuery t' nm' s' l').map Query.sql) ∧
    (∀ (pid pid' : Int) (s s' : Option Int) (n n' : Int),
        s.isSome = s'.isSome → (aggQuery pid s n).sql = (aggQuery pid' s' n').sql) ∧
    (∀ (pid pid' : Int) (s s' : Option Int) (o o' : Option String)
        (h h' : Option Bool) (g g' : Option String) (l l' off off' : Int),
        s.isSome = s'.isSome → truthyStr o = truthyStr o' →
        h.isSome = h'.isSome → truthyStr g = truthyStr g' →
        (glQuery pid s o h g l off).sql = (glQuery pid' s' o' h' g' l' off').sql) ∧
    (∀ (q q' : String) (l l' : Int), (searchQuery q l).sql = (searchQuery q' l').sql) := by
  refine ⟨?_, ?_, ?_, ?_⟩
  · intro t t' nm nm' s s' l l' h1 h2 h3
    simp only [gamesQuery, h1, h2, h3]
    cases hc : !truthyInt t' && !truthyStr nm' <;> simp [hc, Except.map]
  · intro pid pid' s s' n n' h
    simp only [aggQuery, h]
  · intro pid pid' s s' o o' h h' g g' l l' off off' h1 h2 h3 h4
    simp only [glQuery, h1, h2, h3, h4]
  · intro q q' l l'
    rfl

/-- Witness for C8: one pair of differing-value calls per operation. -/
theorem c8_bound_parameters_witness :
    (truthyInt (some 3) = truthyInt (some 4) ∧
     truthyStr (some "Nuggets") = truthyStr (some "Lakers") ∧
     (some (2020 : Int)).isSome = (some (2021 : Int)).isSome ∧
     (gamesQuery (some 3) (some "Nuggets") (some 2020) 10).map Query.sql
        = (gamesQuery (some 4) (some "Lakers") (some 2021) 20).map Query.sql) ∧
    ((aggQuery 1 (some 2020) 5).sql = (aggQuery 2 (some 2021) 7).sql) ∧
    ((glQuery 1 (some 2020) (some "Heat") (some true) (some "Playoffs") 50 0).sql
        = (glQuery 2 (some 2021) (some "Bulls") (some false) (some "Regular Season") 25 75).sql) ∧
    ((searchQuery "curry" 20).sql = (searchQuery "james" 5).sql) :=
  ⟨⟨by decide, by decide, rfl,
      c8_bound_parameters.1 (some 3) (some 4) (some "Nuggets") (some "Lakers")
        (some 2020) (some 2021) 10 20 (by decide) (by decide) rfl⟩,
    c8_bound_parameters.2.1 1 2 (some 2020) (some 2021) 5 7 rfl,
    c8_bound_parameters.2.2.1 1 2 (some 2020) (some 2021) (some "Heat")
      (some "Bulls") (some true) (some false) (some "Playoffs")
      (some "Regular Season") 50 25 0 75 rfl (by decide) rfl (by decide),
    c8_bound_parameters.2.2.2 "curry" "james" 20 5⟩

/-- Unfolding lemma: a `%` pattern head matches via some suffix. -/
theorem likeM_pct (p s : List Char) :
    likeM ('%' :: p) s = (suffixesL s).any (fun t => likeM p t) := by
  rw [likeM.eq_def]
  simp

theorem likeM_lit_nil (c : Char) (p : List Char)
    (h1 : c ≠ '%') (h2 : c ≠ '_') (h3 : c ≠ '\\') :
    likeM (c :: p) [] = false := by
  rw [likeM.eq_def]
  simp [h1, h2, h3]

theorem likeM_lit_cons (c : Char) (p : List Char) (d : Char) (s2 : List Char)
    (h1 : c ≠ '%') (h2 : c ≠ '_') (h3 : c ≠ '\\') :
    likeM (c :: p) (d :: s2) = (d == c && likeM p s2) := by
  rw [likeM.eq_def]
  simp [h1, h2, h3]

theorem mem_suffixesL (s t : List Char) : t ∈ suffixesL s ↔ t <:+ s := by
  induction s with
  | nil => simp [suffixesL]
  | cons d s2 ih =>
    rw [show suffixesL (d :: s2) = (d :: s2) :: suffixesL s2 from rfl]
    rw [List.mem_cons, ih, List.suffix_cons_iff]

theorem likeM_nil (s : List Char) : likeM [] s = s.isEmpty := by
  rw [likeM.eq_def]

theorem likeM_pct_iff (p s : List Char) :
    likeM ('%' :: p) s = true ↔ ∃ t, t <:+ s ∧ likeM p t = true := by
  rw [likeM_pct]
  simp only [List.any_eq_true, mem_suffixesL]

theorem likeM_lit_pct (q : List Char) (hq : noMetaB q = true) :
    ∀ s, likeM (q ++ ['%']) s = true ↔ q <+: s := by
  induction q with
  | nil =>
    intro s
    rw [show ([] : List Char) ++ ['%'] = ['%'] from rfl, likeM_pct_iff]
    constructor
    · intro _
      exact List.nil_prefix
    · intro _
      exact ⟨[], List.nil_suffix, rfl⟩
  | cons c q ih =>
    simp only [noMetaB, List.all_cons, Bool.and_eq_true, Bool.not_eq_eq_eq_not,
      Bool.not_true, beq_eq_false_iff_ne] at hq
    obtain ⟨⟨⟨hc1, hc2⟩, hc3⟩, hq2⟩ := hq
    have ih2 := ih (by simpa [noMetaB] using hq2)
    intro s
    rw [show (c :: q) ++ ['%'] = c :: (q ++ ['%']) from rfl]
    cases s with
    | nil =>
      rw [likeM_lit_nil c _ hc1 hc2 hc3]
      simp
    | cons d s2 =>
      rw [likeM_lit_cons c _ d s2 hc1 hc2 hc3]
      simp only [Bool.and_eq_true, beq_iff_eq, ih2, List.cons_prefix_cons]
      tauto

theorem likeM_infix_iff (q : List Char) (hq : noMetaB q = true) (s : List Char) :
    likeM ('%' :: (q ++ ['%'])) s = true ↔ q <:+: s := by
  rw [likeM_pct_iff]
  constructor
  · rintro ⟨t, hts, hl⟩
    exact (@ List.infix_iff_prefix_suffix _ q s).mpr ⟨t, (likeM_lit_pct q hq t).mp hl, hts⟩
  · intro h
    obtain ⟨t, hpt, hts⟩ := (@ List.infix_iff_prefix_suffix _ q s).mp h
    exact ⟨t, hts, (likeM_lit_pct q hq t).mpr hpt⟩

theorem lowerL_wrap (q : String) :
    lowerL ("%" ++ q ++ "%") = '%' :: (lowerL q ++ ['%']) := by
  have h : Char.toLower '%' = '%' := by decide
  have hd : ("%" ++ q ++ "%").data = '%' :: (q.data ++ ['%']) := by
    rw [show ("%" ++ q ++ "%").data = ("%" ++ q).data ++ ("%" : String).data from rfl]
    rw [show ("%" ++ q).data = ("%" : String).data ++ q.data from rfl]
    rfl
  simp [lowerL, hd, List.map_append, h]

/-- C7 (amended): for every query string whose lowercased text contains
none of the LIKE metacharacters `%`, `_`, `\x5c`, `/players/search`
returns exactly the players whose full name contains the query as a
case-insensitive substring, ordered by full name and capped at `limit`
(for queries containing metacharacters, ILIKE wildcard semantics apply
instead — see the counterexample). -/
theorem c7_search_substring (q : String) (limit : Nat) (db : DB)
    (hq : noMetaB (lowerL q) = true) :
    players_search q limit db = playersSearchSpec q limit db := by
  unfold players_search playersSearchSpec
  have hf : ∀ p : Player,
      ilikeB ("%" ++ q ++ "%") (fullName p)
        = decide (lowerL q <:+: lowerL (fullName p)) := by
    intro p
    unfold ilikeB
    rw [lowerL_wrap]
    have h := likeM_infix_iff (lowerL q) hq (lowerL (fullName p))
    have hiff : likeM ('%' :: (lowerL q ++ ['%'])) (lowerL (fullName p)) = true
        ↔ decide (lowerL q <:+: lowerL (fullName p)) = true := by
      rw [h, decide_eq_true_eq]
    cases hb : likeM ('%' :: (lowerL q ++ ['%'])) (lowerL (fullName p)) <;>
      cases hd2 : decide (lowerL q <:+: lowerL (fullName p)) <;> simp_all
  rw [ List.filter_congr (fun p _ => hf p)]

/-- Witness for C7 at q = "curry". -/
theorem c7_search_substring_witness :
    noMetaB (lowerL "curry") = true ∧
    players_search "curry" 20 c7wdb = playersSearchSpec "curry" 20 c7wdb :=
  ⟨by decide, c7_search_substring "curry" 20 c7wdb (by decide)⟩

/-- Counterexample to C7 as stated: with q = "%" (a LIKE wildcard) the
endpoint returns a player, "Ann Bee", whose full name does not contain
"%" as a substring, so the returned set is not the substring-match
set. -/
theorem c7_search_counterexample :
    players_search "%" 20 c7db ≠ playersSearchSpec "%" 20 c7db := by decide
